import Mathlib

/-!
Shallow embedding of the ledger operations of the Biz-Manager repository
(small-business management web app backed by a document store).

Conventions of the embedding:
* JavaScript numbers are modelled as exact rationals (`ℚ`); stock counts as `ℤ`.
* Each Firestore collection is a Lean `List` of records inside an explicit
  state structure; `updateDocument(col, id, patch)` is modelled by `listUpdate`
  (patch the documents whose id matches), `addDocument(col, data)` by list
  append, `getDocument(col, id)` by `List.find?` on the id.
* A JavaScript `async` method that can `throw` is modelled as a function
  `State → State × Except String α`: the returned state is the store after the
  writes that were already awaited when the exception propagated (the source
  performs sequential awaited writes with no rollback), and the `Except` carries
  the thrown error message on failure.
* Server-assigned timestamps (`serverTimestamp()`, `Date.now()`) are opaque to
  every claim considered here and are left out of the records; the ambient
  authenticated user id is carried as an environment field `uid`.
-/

namespace BizManager

/-- Patch every document of the collection whose key matches `x` with `g`;
model of the document-store `updateDocument` applied to list-backed
collections (document ids are unique in the store, so at most one document
is patched). -/
def listUpdate {α : Type} (key : α → String) (x : String) (g : α → α)
    (ps : List α) : List α :=
  ps.map (fun a => if key a == x then g a else a)

/-- Looking a document up after a patch: the patched collection finds the
patched document for the patched key, and is unchanged at every other key. -/
theorem find_listUpdate {α : Type} (key : α → String) (x y : String)
    (g : α → α) (hg : ∀ a, key (g a) = key a) (ps : List α) :
    (listUpdate key x g ps).find? (fun a => key a == y) =
      if y = x then (ps.find? (fun a => key a == x)).map g
      else ps.find? (fun a => key a == y) := by
  induction ps with
  | nil => simp [listUpdate]
  | cons a tl ih =>
    simp only [listUpdate, List.map_cons] at *
    by_cases hax : key a = x
    · have h1 : (if (key a == x) then g a else a) = g a := by simp [hax]
      rw [h1]
      by_cases hyx : y = x
      · subst hyx
        rw [if_pos rfl]
        rw [List.find?_cons_of_pos _ (by simp [hg, hax]),
            List.find?_cons_of_pos _ (by simp [hax])]
        simp
      · rw [if_neg hyx]
        rw [List.find?_cons_of_neg _ (by simp [hg, hax]; exact fun h => hyx h.symm),
            List.find?_cons_of_neg _ (by simp [hax]; exact fun h => hyx h.symm)]
        rw [ih, if_neg hyx]
    · have h1 : (if (key a == x) then g a else a) = a := by simp [hax]
      rw [h1]
      by_cases hay : key a = y
      · have hyx : ¬ y = x := fun h => hax (hay.trans h)
        rw [if_neg hyx]
        rw [List.find?_cons_of_pos _ (by simp [hay]),
            List.find?_cons_of_pos _ (by simp [hay])]
      · rw [List.find?_cons_of_neg _ (by simp [hay])]
        rw [ih]
        by_cases hyx : y = x
        · subst hyx
          rw [if_pos rfl, if_pos rfl, List.find?_cons_of_neg _ (by simp [hax])]
        · rw [if_neg hyx, if_neg hyx, List.find?_cons_of_neg _ (by simp [hay])]

/-- Looking up the patched key after a patch yields the patched document. -/
theorem find_listUpdate_self {α : Type} (key : α → String) (x : String)
    (g : α → α) (hg : ∀ a, key (g a) = key a) (ps : List α) :
    (listUpdate key x g ps).find? (fun a => key a == x) =
      (ps.find? (fun a => key a == x)).map g := by
  rw [find_listUpdate key x x g hg, if_pos rfl]

/-- Looking up any other key after a patch is unaffected by the patch. -/
theorem find_listUpdate_other {α : Type} (key : α → String) (x y : String)
    (g : α → α) (hg : ∀ a, key (g a) = key a) (ps : List α) (hxy : y ≠ x) :
    (listUpdate key x g ps).find? (fun a => key a == y) =
      ps.find? (fun a => key a == y) := by
  rw [find_listUpdate key x y g hg, if_neg hxy]

/-! ## Inventory: products and stock adjustment (FirestoreManager, store.js) -/

/-- A document of the `products` collection (fields used by the ledger
operations; created by `addProduct`). -/
structure Product where
  id : String
  name : String
  sku : String
  cost : ℚ
  price : ℚ
  stock : ℤ
  reorderLevel : ℤ
  lowStock : Bool
  unit : String
deriving Repr, DecidableEq

/-- A document of the `inventory_logs` collection, appended by `updateStock`. -/
structure InventoryLog where
  productId : String
  productName : String
  quantityChange : ℤ
  previousStock : ℤ
  newStock : ℤ
  reason : String
  reference : Option String
  userId : String
deriving Repr, DecidableEq

/-- The slice of the document store touched by the stock adjuster, plus the
ambient authenticated user id. -/
structure InvState where
  products : List Product
  inventoryLogs : List InventoryLog
  uid : String
deriving Repr, DecidableEq

/-- `getDocument('products', id)`. -/
def findProduct (s : InvState) (productId : String) : Option Product :=
  s.products.find? (fun p => p.id == productId)

/-- `FirestoreManager.updateStock(productId, quantityChange, reason, reference)`
(store.js): read the product, fail if missing, compute
`newStock = stock + quantityChange`, fail with `Insufficient stock` if it is
negative, otherwise write the new stock together with the recomputed
`lowStock` flag and append one inventory log entry; returns `newStock`. -/
def updateStock (productId : String) (quantityChange : ℤ) (reason : String)
    (reference : Option String) (s : InvState) : InvState × Except String ℤ :=
  match findProduct s productId with
  | none => (s, .error "Product not found")
  | some product =>
    let newStock := product.stock + quantityChange
    if newStock < 0 then (s, .error "Insufficient stock")
    else
      let low : Bool := decide (newStock ≤ product.reorderLevel)
      let products := listUpdate Product.id productId
        (fun p => { p with stock := newStock, lowStock := low }) s.products
      let log : InventoryLog :=
        { productId := productId, productName := product.name,
          quantityChange := quantityChange, previousStock := product.stock,
          newStock := newStock, reason := reason, reference := reference,
          userId := s.uid }
      ({ s with products := products,
                inventoryLogs := s.inventoryLogs ++ [log] }, .ok newStock)

/-- One `updateStock` call as issued by a caller: the quantity change plus the
bookkeeping arguments that do not influence the stock arithmetic. -/
structure StockCall where
  quantityChange : ℤ
  reason : String
  reference : Option String
deriving Repr, DecidableEq

/-- Run a sequence of `updateStock` calls against the same product, threading
the store state and collecting each call's result. -/
def runStockCalls (productId : String) (calls : List StockCall) (s : InvState) :
    InvState × List (Except String ℤ) :=
  match calls with
  | [] => (s, [])
  | c :: cs =>
    let r := updateStock productId c.quantityChange c.reason c.reference s
    let rest := runStockCalls productId cs r.1
    (rest.1, r.2 :: rest.2)

/-- Sum of the quantity changes of the calls whose paired result succeeded. -/
def appliedSum : List StockCall → List (Except String ℤ) → ℤ
  | c :: cs, r :: rs =>
      (match r with | .ok _ => c.quantityChange | .error _ => 0) + appliedSum cs rs
  | _, _ => 0

/-- A call that would drive the stock negative throws before any write: the
store state is returned untouched together with the error. -/
theorem updateStock_insufficient (productId : String) (c : ℤ) (reason : String)
    (reference : Option String) (s : InvState) (p : Product)
    (hp : findProduct s productId = some p) (h : p.stock + c < 0) :
    updateStock productId c reason reference s = (s, .error "Insufficient stock") := by
  unfold updateStock
  rw [hp]
  simp [h]

/-- Full description of a successful `updateStock` call: the product document
is patched with the new stock and recomputed `lowStock` flag, one inventory
log entry is appended, and the new stock is returned. -/
theorem updateStock_ok (productId : String) (c : ℤ) (reason : String)
    (reference : Option String) (s : InvState) (p : Product)
    (hp : findProduct s productId = some p) (h : 0 ≤ p.stock + c) :
    updateStock productId c reason reference s =
      ({ s with
          products := listUpdate Product.id productId
            (fun q => { q with
                stock := p.stock + c,
                lowStock := decide (p.stock + c ≤ p.reorderLevel) }) s.products,
          inventoryLogs := s.inventoryLogs ++
            [{ productId := productId, productName := p.name, quantityChange := c,
               previousStock := p.stock, newStock := p.stock + c, reason := reason,
               reference := reference, userId := s.uid }] },
       .ok (p.stock + c)) := by
  unfold updateStock
  rw [hp]
  simp [not_lt.mpr h]

/-- After a successful `updateStock`, looking the product up returns the
patched document. -/
theorem findProduct_updateStock_ok (productId : String) (c : ℤ) (reason : String)
    (reference : Option String) (s : InvState) (p : Product)
    (hp : findProduct s productId = some p) (h : 0 ≤ p.stock + c) :
    findProduct (updateStock productId c reason reference s).1 productId =
      some { p with stock := p.stock + c,
                    lowStock := decide (p.stock + c ≤ p.reorderLevel) } := by
  rw [updateStock_ok productId c reason reference s p hp h]
  unfold findProduct at hp ⊢
  dsimp only
  rw [find_listUpdate_self Product.id productId
      (fun q => { q with
          stock := p.stock + c,
          lowStock := decide (p.stock + c ≤ p.reorderLevel) }) (fun a => rfl)]
  rw [hp]
  rfl

/-- Running a sequence of stock calls keeps the product present, moves its
stock by exactly the sum of the successfully applied quantity changes, leaves
the reorder level unchanged, and preserves non-negativity of the stock. -/
theorem runStockCalls_spec (productId : String) (calls : List StockCall) :
    ∀ (s : InvState) (p : Product), findProduct s productId = some p →
    ∃ q, findProduct (runStockCalls productId calls s).1 productId = some q
      ∧ q.stock = p.stock + appliedSum calls (runStockCalls productId calls s).2
      ∧ q.reorderLevel = p.reorderLevel
      ∧ (0 ≤ p.stock → 0 ≤ q.stock) := by
  induction calls with
  | nil =>
    intro s p hp
    exact ⟨p, hp, by simp [runStockCalls, appliedSum], rfl, id⟩
  | cons c cs ih =>
    intro s p hp
    by_cases h : p.stock + c.quantityChange < 0
    · have hfail := updateStock_insufficient productId c.quantityChange c.reason
        c.reference s p hp h
      obtain ⟨q, hq1, hq2, hq3, hq4⟩ := ih s p hp
      refine ⟨q, ?_, ?_, hq3, hq4⟩
      · simpa [runStockCalls, hfail] using hq1
      · simpa [runStockCalls, hfail, appliedSum] using hq2
    · push_neg at h
      have hfind := findProduct_updateStock_ok productId c.quantityChange c.reason
        c.reference s p hp h
      have hres := updateStock_ok productId c.quantityChange c.reason
        c.reference s p hp h
      obtain ⟨q, hq1, hq2, hq3, hq4⟩ :=
        ih (updateStock productId c.quantityChange c.reason c.reference s).1 _ hfind
      refine ⟨q, ?_, ?_, hq3, ?_⟩
      · simpa [runStockCalls] using hq1
      · have : (updateStock productId c.quantityChange c.reason c.reference s).2
            = .ok (p.stock + c.quantityChange) := by rw [hres]
        simp only [runStockCalls]
        rw [hq2]
        simp [appliedSum, this]
        ring
      · intro _
        exact hq4 h

/-- Claim C2: for every sequence of `updateStock` calls on a product with
initial stock S ≥ 0, the final stock equals S plus the sum of the quantity
changes of the successful calls; any call for which stock + quantityChange
would be negative fails with the insufficient-stock error and leaves the
store unchanged; consequently the stock is non-negative after every prefix
of the sequence (it never goes negative). -/
theorem claim_updateStock_invariant (productId : String) (calls : List StockCall)
    (s : InvState) (p : Product)
    (hp : findProduct s productId = some p) (h0 : 0 ≤ p.stock) :
    (∃ q, findProduct (runStockCalls productId calls s).1 productId = some q
       ∧ q.stock = p.stock + appliedSum calls (runStockCalls productId calls s).2
       ∧ 0 ≤ q.stock)
    ∧ (∀ pre post, calls = pre ++ post →
        ∃ q, findProduct (runStockCalls productId pre s).1 productId = some q
          ∧ 0 ≤ q.stock)
    ∧ (∀ c reason reference, p.stock + c < 0 →
        updateStock productId c reason reference s
          = (s, .error "Insufficient stock")) := by
  refine ⟨?_, ?_, ?_⟩
  · obtain ⟨q, h1, h2, _, h4⟩ := runStockCalls_spec productId calls s p hp
    exact ⟨q, h1, h2, h4 h0⟩
  · intro pre post _
    obtain ⟨q, h1, _, _, h4⟩ := runStockCalls_spec productId pre s p hp
    exact ⟨q, h1, h4 h0⟩
  · intro c reason reference hc
    exact updateStock_insufficient productId c reason reference s p hp hc

/-- Sample product document used to instantiate the claims on concrete data
(stock 10, reorder level 5, as in the spec scenario). -/
def demoProduct : Product :=
  { id := "p1", name := "Widget", sku := "W-1", cost := 4, price := 7,
    stock := 10, reorderLevel := 5, lowStock := false, unit := "pcs" }

/-- Sample inventory store holding just `demoProduct`. -/
def demoInv : InvState :=
  { products := [demoProduct], inventoryLogs := [], uid := "user-1" }

/-- Instantiation of claim C2 at the spec scenario: product stock 10,
single call of `updateStock` with quantity change -12 and reason sale. -/
theorem claim_updateStock_invariant_witness :
    (∃ q, findProduct (runStockCalls "p1" [⟨-12, "sale", none⟩] demoInv).1 "p1" = some q
       ∧ q.stock = demoProduct.stock
           + appliedSum [⟨-12, "sale", none⟩]
               (runStockCalls "p1" [⟨-12, "sale", none⟩] demoInv).2
       ∧ 0 ≤ q.stock)
    ∧ (∀ pre post, [(⟨-12, "sale", none⟩ : StockCall)] = pre ++ post →
        ∃ q, findProduct (runStockCalls "p1" pre demoInv).1 "p1" = some q
          ∧ 0 ≤ q.stock)
    ∧ (∀ c reason reference, demoProduct.stock + c < 0 →
        updateStock "p1" c reason reference demoInv
          = (demoInv, .error "Insufficient stock")) :=
  claim_updateStock_invariant "p1" [⟨-12, "sale", none⟩] demoInv demoProduct
    (by decide) (by decide)

/-- Claim C3: every successful `updateStock` call appends exactly one
inventory log entry whose `previousStock` is the stock read before the
update and whose `newStock` satisfies `newStock - previousStock =
quantityChange`; the product is patched with that new stock and the
recomputed `lowStock` flag (`newStock ≤ reorderLevel`); the call returns
`newStock`. -/
theorem claim_updateStock_log (productId : String) (c : ℤ) (reason : String)
    (reference : Option String) (s : InvState) (n : ℤ)
    (h : (updateStock productId c reason reference s).2 = .ok n) :
    ∃ p log q,
      findProduct s productId = some p ∧
      (updateStock productId c reason reference s).1.inventoryLogs
        = s.inventoryLogs ++ [log] ∧
      log.previousStock = p.stock ∧
      log.newStock - log.previousStock = c ∧
      n = log.newStock ∧
      findProduct (updateStock productId c reason reference s).1 productId = some q ∧
      q.stock = log.newStock ∧
      (q.lowStock = true ↔ log.newStock ≤ p.reorderLevel) := by
  cases hfp : findProduct s productId with
  | none =>
    exfalso
    unfold updateStock at h
    rw [hfp] at h
    simp at h
  | some p =>
    by_cases hc : p.stock + c < 0
    · exfalso
      rw [updateStock_insufficient productId c reason reference s p hfp hc] at h
      simp at h
    · push_neg at hc
      have hres := updateStock_ok productId c reason reference s p hfp hc
      have hfind := findProduct_updateStock_ok productId c reason reference s p hfp hc
      have hn : n = p.stock + c := by
        rw [hres] at h
        exact (Except.ok.inj h).symm
      refine ⟨p,
        { productId := productId, productName := p.name, quantityChange := c,
          previousStock := p.stock, newStock := p.stock + c, reason := reason,
          reference := reference, userId := s.uid },
        { p with
            stock := p.stock + c,
            lowStock := decide (p.stock + c ≤ p.reorderLevel) },
        rfl, ?_, rfl, by ring, by rw [hn], hfind, rfl, by simp⟩
      rw [hres]

/-- Instantiation of claim C3 at a concrete successful sale of 3 units from
stock 10. -/
theorem claim_updateStock_log_witness :
    ∃ p log q,
      findProduct demoInv "p1" = some p ∧
      (updateStock "p1" (-3) "sale" none demoInv).1.inventoryLogs
        = demoInv.inventoryLogs ++ [log] ∧
      log.previousStock = p.stock ∧
      log.newStock - log.previousStock = -3 ∧
      (7 : ℤ) = log.newStock ∧
      findProduct (updateStock "p1" (-3) "sale" none demoInv).1 "p1" = some q ∧
      q.stock = log.newStock ∧
      (q.lowStock = true ↔ log.newStock ≤ p.reorderLevel) :=
  claim_updateStock_log "p1" (-3) "sale" none demoInv 7 rfl

/-! ## Finance: accounts and transaction recording (FirestoreManager, store.js) -/

/-- A document of the `accounts` collection (fields used by the ledger
operations and the payment-account lookup). -/
structure Account where
  id : String
  name : String
  balance : ℚ
  isDefault : Bool
deriving Repr, DecidableEq

/-- A document of the `transactions` collection, created by
`recordTransaction` (spread of the input data plus the fixed fields the
source adds). -/
structure TransactionDoc where
  id : Nat
  type : String
  amount : ℚ
  accountId : String
  toAccountId : Option String
  category : String
  status : String
  reconciled : Bool
  notes : String
deriving Repr, DecidableEq

/-- A document of the `audit_logs` collection, appended by `auditLog`
(payload fields that are opaque strings of the environment are omitted). -/
structure AuditLog where
  entity : String
  entityId : Nat
  action : String
deriving Repr, DecidableEq

/-- The slice of the document store touched by the transaction recorder;
`nextId` models the store-assigned id of the next created document. -/
structure FinState where
  accounts : List Account
  transactions : List TransactionDoc
  auditLogs : List AuditLog
  nextId : Nat
deriving Repr, DecidableEq

/-- `getDocument('accounts', id)`. -/
def findAccount (s : FinState) (accountId : String) : Option Account :=
  s.accounts.find? (fun a => a.id == accountId)

/-- Balance of the account with the given id, when it exists. -/
def balanceOf (s : FinState) (accountId : String) : Option ℚ :=
  (findAccount s accountId).map Account.balance

/-- `FirestoreManager.updateAccountBalance(accountId, amountChange)`
(store.js): read the account, fail with `Account not found` if missing,
otherwise write `balance + amountChange` back and return the new balance. -/
def updateAccountBalance (accountId : String) (amountChange : ℚ) (s : FinState) :
    FinState × Except String ℚ :=
  match findAccount s accountId with
  | none => (s, .error "Account not found")
  | some account =>
    let newBalance := account.balance + amountChange
    let accounts := listUpdate Account.id accountId
      (fun a => { a with balance := newBalance }) s.accounts
    ({ s with accounts := accounts }, .ok newBalance)

/-- The input object of `recordTransaction`. Fields are `Option`s so that an
absent property (JavaScript `undefined`) is representable; the source tests
each required field with JavaScript truthiness. -/
structure TransactionData where
  type : Option String := none
  amount : Option ℚ := none
  accountId : Option String := none
  category : Option String := none
  toAccountId : Option String := none
  notes : Option String := none
deriving Repr, DecidableEq

/-- JavaScript truthiness of a possibly-absent string property:
`undefined` and the empty string are falsy. -/
def truthyStr : Option String → Bool
  | none => false
  | some s => s != ""

/-- JavaScript truthiness of a possibly-absent numeric property:
`undefined` and `0` are falsy. -/
def truthyNum : Option ℚ → Bool
  | none => false
  | some q => q != 0

/-- The `required.forEach` validation loop of `recordTransaction`: the first
required field (in source order type, amount, accountId, category) that is
falsy, if any. -/
def missingField (td : TransactionData) : Option String :=
  if !truthyStr td.type then some "type"
  else if !truthyNum td.amount then some "amount"
  else if !truthyStr td.accountId then some "accountId"
  else if !truthyStr td.category then some "category"
  else none

/-- `FirestoreManager.recordTransaction(transactionData)` (store.js):
validate required fields by truthiness, mutate the balance of `accountId`
(and of `toAccountId` for transfers) with sequential awaited writes, then
create one `transactions` document and one audit log entry and return the
created document. A thrown error propagates with whatever writes already
happened left in place. -/
def recordTransaction (td : TransactionData) (s : FinState) :
    FinState × Except String TransactionDoc :=
  match missingField td with
  | some f => (s, .error ("Missing required field: " ++ f))
  | none =>
    let ty := td.type.getD ""
    let amount := td.amount.getD 0
    let accountId := td.accountId.getD ""
    let balanceStep : FinState × Except String Unit :=
      if ty == "income" then
        match updateAccountBalance accountId amount s with
        | (s1, .ok _) => (s1, .ok ())
        | (s1, .error e) => (s1, .error e)
      else if ty == "expense" then
        match updateAccountBalance accountId (-amount) s with
        | (s1, .ok _) => (s1, .ok ())
        | (s1, .error e) => (s1, .error e)
      else if ty == "transfer" then
        if !truthyStr td.toAccountId then (s, .error "Transfer requires toAccountId")
        else
          match updateAccountBalance accountId (-amount) s with
          | (s1, .error e) => (s1, .error e)
          | (s1, .ok _) =>
            match updateAccountBalance (td.toAccountId.getD "") amount s1 with
            | (s2, .ok _) => (s2, .ok ())
            | (s2, .error e) => (s2, .error e)
      else (s, .ok ())
    match balanceStep with
    | (s1, .error e) => (s1, .error e)
    | (s1, .ok _) =>
      let doc : TransactionDoc :=
        { id := s1.nextId, type := ty, amount := amount, accountId := accountId,
          toAccountId := td.toAccountId, category := td.category.getD "",
          status := "completed", reconciled := false, notes := td.notes.getD "" }
      let s2 := { s1 with
        transactions := s1.transactions ++ [doc],
        nextId := s1.nextId + 1 }
      let s3 := { s2 with
        auditLogs := s2.auditLogs ++ [{ entity := "transaction",
                                        entityId := doc.id, action := "create" }] }
      (s3, .ok doc)

/-- Reading an existing account and writing the adjusted balance back. -/
theorem updateAccountBalance_ok (accountId : String) (d : ℚ) (s : FinState)
    (a : Account) (ha : findAccount s accountId = some a) :
    updateAccountBalance accountId d s =
      ({ s with
          accounts := listUpdate Account.id accountId
            (fun x => { x with balance := a.balance + d }) s.accounts },
       .ok (a.balance + d)) := by
  unfold updateAccountBalance
  rw [ha]

/-- Adjusting a missing account throws without touching the store. -/
theorem updateAccountBalance_missing (accountId : String) (d : ℚ) (s : FinState)
    (ha : findAccount s accountId = none) :
    updateAccountBalance accountId d s = (s, .error "Account not found") := by
  unfold updateAccountBalance
  rw [ha]

/-- Validation passes whenever the four required fields are present and
truthy. -/
theorem missingField_none (ty : String) (amt : ℚ) (aid cat : String)
    (tido noteso : Option String)
    (h1 : ty ≠ "") (h2 : amt ≠ 0) (h3 : aid ≠ "") (h4 : cat ≠ "") :
    missingField ⟨some ty, some amt, some aid, some cat, tido, noteso⟩ = none := by
  simp [missingField, truthyStr, truthyNum, h1, h2, h3, h4]

/-- The `transactions` document created from valid input data. -/
def mkTransactionDoc (docId : Nat) (ty : String) (amt : ℚ) (aid cat : String)
    (tido noteso : Option String) : TransactionDoc :=
  { id := docId, type := ty, amount := amt, accountId := aid,
    toAccountId := tido, category := cat, status := "completed",
    reconciled := false, notes := noteso.getD "" }

/-- Reduction of `recordTransaction` for a valid income transaction against
an existing account: the balance is increased by the amount and exactly one
transaction document (plus one audit log entry) is appended. -/
theorem recordTransaction_income (amt : ℚ) (aid cat : String)
    (tido noteso : Option String) (s : FinState) (a : Account)
    (h2 : amt ≠ 0) (h3 : aid ≠ "") (h4 : cat ≠ "")
    (ha : findAccount s aid = some a) :
    recordTransaction ⟨some "income", some amt, some aid, some cat, tido, noteso⟩ s =
      ({ accounts := listUpdate Account.id aid
           (fun x => { x with balance := a.balance + amt }) s.accounts,
         transactions := s.transactions ++
           [mkTransactionDoc s.nextId "income" amt aid cat tido noteso],
         auditLogs := s.auditLogs ++
           [{ entity := "transaction", entityId := s.nextId, action := "create" }],
         nextId := s.nextId + 1 },
       .ok (mkTransactionDoc s.nextId "income" amt aid cat tido noteso)) := by
  unfold recordTransaction
  rw [missingField_none "income" amt aid cat tido noteso (by decide) h2 h3 h4]
  simp [updateAccountBalance_ok aid amt s a ha, mkTransactionDoc]

/-- Reduction of `recordTransaction` for a valid expense transaction against
an existing account: the balance is decreased by the amount and exactly one
transaction document (plus one audit log entry) is appended. -/
theorem recordTransaction_expense (amt : ℚ) (aid cat : String)
    (tido noteso : Option String) (s : FinState) (a : Account)
    (h2 : amt ≠ 0) (h3 : aid ≠ "") (h4 : cat ≠ "")
    (ha : findAccount s aid = some a) :
    recordTransaction ⟨some "expense", some amt, some aid, some cat, tido, noteso⟩ s =
      ({ accounts := listUpdate Account.id aid
           (fun x => { x with balance := a.balance + -amt }) s.accounts,
         transactions := s.transactions ++
           [mkTransactionDoc s.nextId "expense" amt aid cat tido noteso],
         auditLogs := s.auditLogs ++
           [{ entity := "transaction", entityId := s.nextId, action := "create" }],
         nextId := s.nextId + 1 },
       .ok (mkTransactionDoc s.nextId "expense" amt aid cat tido noteso)) := by
  unfold recordTransaction
  rw [missingField_none "expense" amt aid cat tido noteso (by decide) h2 h3 h4]
  simp [updateAccountBalance_ok aid (-amt) s a ha, mkTransactionDoc]

/-- Reduction of `recordTransaction` for a valid transfer between two
distinct existing accounts: the source balance is decreased, the destination
balance increased, and exactly one transaction document (plus one audit log
entry) is appended. -/
theorem recordTransaction_transfer (amt : ℚ) (aid cat tid : String)
    (noteso : Option String) (s : FinState) (a b : Account)
    (h2 : amt ≠ 0) (h3 : aid ≠ "") (h4 : cat ≠ "") (h5 : tid ≠ "")
    (hne : tid ≠ aid)
    (ha : findAccount s aid = some a) (hb : findAccount s tid = some b) :
    recordTransaction ⟨some "transfer", some amt, some aid, some cat, some tid, noteso⟩ s =
      ({ accounts := listUpdate Account.id tid
           (fun x => { x with balance := b.balance + amt })
           (listUpdate Account.id aid
             (fun x => { x with balance := a.balance + -amt }) s.accounts),
         transactions := s.transactions ++
           [mkTransactionDoc s.nextId "transfer" amt aid cat (some tid) noteso],
         auditLogs := s.auditLogs ++
           [{ entity := "transaction", entityId := s.nextId, action := "create" }],
         nextId := s.nextId + 1 },
       .ok (mkTransactionDoc s.nextId "transfer" amt aid cat (some tid) noteso)) := by
  have hb1 : findAccount
      { s with
          accounts := listUpdate Account.id aid
            (fun x => { x with balance := a.balance + -amt }) s.accounts } tid
      = some b := by
    unfold findAccount at hb ⊢
    dsimp only
    rw [find_listUpdate_other Account.id aid tid
        (fun x => { x with balance := a.balance + -amt }) (fun x => rfl)
        s.accounts hne]
    exact hb
  unfold recordTransaction
  rw [missingField_none "transfer" amt aid cat (some tid) noteso (by decide) h2 h3 h4]
  simp only [truthyStr, Option.getD_some]
  rw [show ((tid != "") = true) by simp [h5]]
  simp [updateAccountBalance_ok aid (-amt) s a ha,
        updateAccountBalance_ok tid amt _ b hb1, mkTransactionDoc]

/-- Reduction of `recordTransaction` for a transfer whose destination account
does not exist: the source balance write has already happened when the
not-found error propagates, and no transaction document is created. -/
theorem recordTransaction_transfer_missing_dest (amt : ℚ) (aid cat tid : String)
    (noteso : Option String) (s : FinState) (a : Account)
    (h2 : amt ≠ 0) (h3 : aid ≠ "") (h4 : cat ≠ "") (h5 : tid ≠ "")
    (ha : findAccount s aid = some a) (hb : findAccount s tid = none) :
    recordTransaction ⟨some "transfer", some amt, some aid, some cat, some tid, noteso⟩ s =
      ({ s with
           accounts := listUpdate Account.id aid
             (fun x => { x with balance := a.balance + -amt }) s.accounts },
       .error "Account not found") := by
  have hne : tid ≠ aid := by
    intro h
    rw [h, ha] at hb
    cases hb
  have hb1 : findAccount
      { s with
          accounts := listUpdate Account.id aid
            (fun x => { x with balance := a.balance + -amt }) s.accounts } tid
      = none := by
    unfold findAccount at hb ⊢
    dsimp only
    rw [find_listUpdate_other Account.id aid tid
        (fun x => { x with balance := a.balance + -amt }) (fun x => rfl)
        s.accounts hne]
    exact hb
  unfold recordTransaction
  rw [missingField_none "transfer" amt aid cat (some tid) noteso (by decide) h2 h3 h4]
  simp only [truthyStr, Option.getD_some]
  rw [show ((tid != "") = true) by simp [h5]]
  simp [updateAccountBalance_ok aid (-amt) s a ha,
        updateAccountBalance_missing tid amt _ hb1]

/-- A validation failure returns the store untouched together with the
missing-field error. -/
theorem recordTransaction_invalid (td : TransactionData) (s : FinState)
    (f : String) (h : missingField td = some f) :
    recordTransaction td s = (s, .error ("Missing required field: " ++ f)) := by
  unfold recordTransaction
  rw [h]

/-- Claim C1: for every `recordTransaction` call with valid required fields
whose referenced accounts exist, type income adds amount to the balance of
accountId, type expense subtracts it, and type transfer subtracts amount
from accountId and adds it to toAccountId; exactly one transactions document
is created and returned. -/
theorem claim_recordTransaction_effect
    (ty : String) (amt : ℚ) (aid cat : String) (tido noteso : Option String)
    (s : FinState) (a : Account) (tid : String) (b : Account)
    (hty : ty = "income" ∨ ty = "expense" ∨ ty = "transfer")
    (hamt : 0 < amt) (haid : aid ≠ "") (hcat : cat ≠ "")
    (ha : findAccount s aid = some a)
    (htr : ty = "transfer" →
      tido = some tid ∧ tid ≠ "" ∧ tid ≠ aid ∧ findAccount s tid = some b) :
    ∃ doc,
      (recordTransaction ⟨some ty, some amt, some aid, some cat, tido, noteso⟩ s).2
        = .ok doc
      ∧ (recordTransaction ⟨some ty, some amt, some aid, some cat, tido, noteso⟩ s).1.transactions
        = s.transactions ++ [doc]
      ∧ doc.type = ty ∧ doc.amount = amt ∧ doc.accountId = aid
      ∧ balanceOf (recordTransaction ⟨some ty, some amt, some aid, some cat, tido, noteso⟩ s).1 aid
          = some (if ty = "income" then a.balance + amt else a.balance - amt)
      ∧ (ty = "transfer" →
          balanceOf (recordTransaction ⟨some ty, some amt, some aid, some cat, tido, noteso⟩ s).1 tid
            = some (b.balance + amt)) := by
  rcases hty with h | h | h
  · subst h
    rw [recordTransaction_income amt aid cat tido noteso s a hamt.ne' haid hcat ha]
    refine ⟨mkTransactionDoc s.nextId "income" amt aid cat tido noteso,
      rfl, rfl, rfl, rfl, rfl, ?_, ?_⟩
    · unfold balanceOf findAccount
      dsimp only
      rw [find_listUpdate_self Account.id aid
          (fun x => { x with balance := a.balance + amt }) (fun x => rfl) s.accounts]
      unfold findAccount at ha
      rw [ha]
      simp
    · intro hcontra
      exact absurd hcontra (by decide)
  · subst h
    rw [recordTransaction_expense amt aid cat tido noteso s a hamt.ne' haid hcat ha]
    refine ⟨mkTransactionDoc s.nextId "expense" amt aid cat tido noteso,
      rfl, rfl, rfl, rfl, rfl, ?_, ?_⟩
    · unfold balanceOf findAccount
      dsimp only
      rw [find_listUpdate_self Account.id aid
          (fun x => { x with balance := a.balance + -amt }) (fun x => rfl) s.accounts]
      unfold findAccount at ha
      rw [ha]
      rw [if_neg (by decide : ¬("expense" : String) = "income")]
      simp [sub_eq_add_neg]
    · intro hcontra
      exact absurd hcontra (by decide)
  · obtain ⟨h1, h5, hne, hb⟩ := htr h
    subst h
    subst h1
    rw [recordTransaction_transfer amt aid cat tid noteso s a b hamt.ne' haid hcat h5 hne ha hb]
    refine ⟨mkTransactionDoc s.nextId "transfer" amt aid cat (some tid) noteso,
      rfl, rfl, rfl, rfl, rfl, ?_, ?_⟩
    · unfold balanceOf findAccount
      dsimp only
      rw [find_listUpdate_other Account.id tid aid
          (fun x => { x with balance := b.balance + amt }) (fun x => rfl)
          _ (Ne.symm hne)]
      rw [find_listUpdate_self Account.id aid
          (fun x => { x with balance := a.balance + -amt }) (fun x => rfl) s.accounts]
      unfold findAccount at ha
      rw [ha]
      rw [if_neg (by decide : ¬("transfer" : String) = "income")]
      simp [sub_eq_add_neg]
    · intro _
      unfold balanceOf findAccount
      dsimp only
      rw [find_listUpdate_self Account.id tid
          (fun x => { x with balance := b.balance + amt }) (fun x => rfl)]
      rw [find_listUpdate_other Account.id aid tid
          (fun x => { x with balance := a.balance + -amt }) (fun x => rfl)
          s.accounts hne]
      unfold findAccount at hb
      rw [hb]
      rfl

/-- Source account of the concrete scenarios: Account A with balance 100. -/
def acctA : Account :=
  { id := "A", name := "Account A", balance := 100, isDefault := true }

/-- Destination account of the concrete scenarios: Account B with balance 0. -/
def acctB : Account :=
  { id := "B", name := "Account B", balance := 0, isDefault := false }

/-- Sample finance store holding accounts A and B and no transactions. -/
def demoFin : FinState :=
  { accounts := [acctA, acctB], transactions := [], auditLogs := [], nextId := 0 }

/-- Instantiation of claim C1 at the spec scenario: transfer of 50 from
Account A (balance 100) to Account B (balance 0) leaves balances 50 and 50
with exactly one transfer-type transaction document. -/
theorem claim_recordTransaction_effect_witness :
    ∃ doc,
      (recordTransaction ⟨some "transfer", some 50, some "A",
          some "Account Transfer", some "B", none⟩ demoFin).2 = .ok doc
      ∧ (recordTransaction ⟨some "transfer", some 50, some "A",
          some "Account Transfer", some "B", none⟩ demoFin).1.transactions
        = demoFin.transactions ++ [doc]
      ∧ doc.type = "transfer" ∧ doc.amount = 50 ∧ doc.accountId = "A"
      ∧ balanceOf (recordTransaction ⟨some "transfer", some 50, some "A",
          some "Account Transfer", some "B", none⟩ demoFin).1 "A"
          = some (if "transfer" = "income" then acctA.balance + 50
                  else acctA.balance - 50)
      ∧ ("transfer" = "income" ∨ "transfer" = "expense" ∨ "transfer" = "transfer")
      ∧ ((0 : ℚ) < 50)
      ∧ ("transfer" = "transfer" →
          balanceOf (recordTransaction ⟨some "transfer", some 50, some "A",
            some "Account Transfer", some "B", none⟩ demoFin).1 "B"
            = some (acctB.balance + 50)) := by
  obtain ⟨doc, w1, w2, w3, w4, w5, w6, w7⟩ :=
    claim_recordTransaction_effect "transfer" 50 "A" "Account Transfer"
      (some "B") none demoFin acctA "B" acctB
      (Or.inr (Or.inr rfl)) (by decide) (by decide) (by decide) (by decide)
      (fun _ => ⟨rfl, by decide, by decide, by decide⟩)
  exact ⟨doc, w1, w2, w3, w4, w5, w6, Or.inr (Or.inr rfl), by decide, w7⟩

/-- The input of the C4 counterexample: a negative amount (−5), which the
claim says must be rejected with a validation error. -/
def c4data : TransactionData :=
  { type := some "income", amount := some (-5), accountId := some "A",
    category := some "Supplies" }

/-- Counterexample to claim C4 as stated: `recordTransaction` does not fail
for a negative amount. With amount = −5 ≤ 0 the call succeeds, creates a
transaction document, and changes the balance of account A from 100 to 95
(the truthiness test `!transactionData[field]` only rejects amount 0). -/
theorem claim_recordTransaction_validation_counterexample :
    c4data.amount = some (-5) ∧ ((-5 : ℚ) ≤ 0)
    ∧ (recordTransaction c4data demoFin).2
        = .ok (mkTransactionDoc 0 "income" (-5) "A" "Supplies" none none)
    ∧ (recordTransaction c4data demoFin).1.transactions
        = demoFin.transactions ++ [mkTransactionDoc 0 "income" (-5) "A" "Supplies" none none]
    ∧ balanceOf (recordTransaction c4data demoFin).1 "A" = some 95 := by
  have hc : c4data
      = ⟨some "income", some (-5), some "A", some "Supplies", none, none⟩ := rfl
  have h := recordTransaction_income (-5) "A" "Supplies" none none demoFin acctA
    (by norm_num) (by decide) (by decide) (by decide)
  refine ⟨rfl, by norm_num, ?_, ?_, ?_⟩
  · rw [hc, h]
    rfl
  · rw [hc, h]
    rfl
  · rw [hc, h]
    unfold balanceOf findAccount
    dsimp only
    rw [find_listUpdate_self Account.id "A"
        (fun x => { x with balance := acctA.balance + (-5) }) (fun x => rfl)]
    rw [show List.find? (fun a => a.id == "A") demoFin.accounts = some acctA
        from by decide]
    show some (acctA.balance + (-5)) = some 95
    norm_num [acctA]

/-- Claim C4 (amended): `recordTransaction` fails with a validation error
when amount is 0 or absent, when one of type, accountId, category is absent
or empty, or when the type is transfer and toAccountId is absent or empty;
in all these cases no document is created and no balance is changed (the
store is returned untouched). Negative amounts, however, pass validation. -/
theorem claim_recordTransaction_validation (td : TransactionData) (s : FinState)
    (h : td.amount = some 0 ∨ td.amount = none
       ∨ td.type = none ∨ td.type = some ""
       ∨ td.accountId = none ∨ td.accountId = some ""
       ∨ td.category = none ∨ td.category = some ""
       ∨ (td.type = some "transfer"
           ∧ (td.toAccountId = none ∨ td.toAccountId = some ""))) :
    (recordTransaction td s).1 = s
    ∧ ∃ e, (recordTransaction td s).2 = .error e := by
  cases hmf : missingField td with
  | some f =>
    rw [recordTransaction_invalid td s f hmf]
    exact ⟨rfl, _, rfl⟩
  | none =>
    have hvals : truthyStr td.type = true ∧ truthyNum td.amount = true
        ∧ truthyStr td.accountId = true ∧ truthyStr td.category = true := by
      unfold missingField at hmf
      by_cases k1 : truthyStr td.type = true
      · by_cases k2 : truthyNum td.amount = true
        · by_cases k3 : truthyStr td.accountId = true
          · by_cases k4 : truthyStr td.category = true
            · exact ⟨k1, k2, k3, k4⟩
            · simp [k1, k2, k3, k4] at hmf
          · simp [k1, k2, k3] at hmf
        · simp [k1, k2] at hmf
      · simp [k1] at hmf
    obtain ⟨k1, k2, k3, k4⟩ := hvals
    have htr : td.type = some "transfer"
        ∧ (td.toAccountId = none ∨ td.toAccountId = some "") := by
      rcases h with h | h | h | h | h | h | h | h | h
      · rw [h] at k2; simp [truthyNum] at k2
      · rw [h] at k2; simp [truthyNum] at k2
      · rw [h] at k1; simp [truthyStr] at k1
      · rw [h] at k1; simp [truthyStr] at k1
      · rw [h] at k3; simp [truthyStr] at k3
      · rw [h] at k3; simp [truthyStr] at k3
      · rw [h] at k4; simp [truthyStr] at k4
      · rw [h] at k4; simp [truthyStr] at k4
      · exact h
    obtain ⟨hty, hto⟩ := htr
    have htof : truthyStr td.toAccountId = false := by
      rcases hto with h9 | h9 <;> simp [h9, truthyStr]
    unfold recordTransaction
    rw [hmf, hty]
    simp [htof]

/-- Instantiation of amended claim C4 at amount 0: the call is rejected with
an error and the store is unchanged. -/
theorem claim_recordTransaction_validation_witness :
    (recordTransaction
      ⟨some "income", some 0, some "A", some "Supplies", none, none⟩ demoFin).1
        = demoFin
    ∧ ∃ e, (recordTransaction
        ⟨some "income", some 0, some "A", some "Supplies", none, none⟩ demoFin).2
          = .error e :=
  claim_recordTransaction_validation
    ⟨some "income", some 0, some "A", some "Supplies", none, none⟩ demoFin
    (Or.inl rfl)

/-- Claim C9: a transfer whose source account exists but whose destination
account does not resolve throws the not-found error only after the source
balance has already been decremented by amount; no transaction document is
created, leaving the store partially mutated. -/
theorem claim_recordTransaction_partial_transfer (amt : ℚ) (aid cat tid : String)
    (noteso : Option String) (s : FinState) (a : Account)
    (hamt : 0 < amt) (haid : aid ≠ "") (hcat : cat ≠ "") (htid : tid ≠ "")
    (ha : findAccount s aid = some a) (hb : findAccount s tid = none) :
    balanceOf (recordTransaction
        ⟨some "transfer", some amt, some aid, some cat, some tid, noteso⟩ s).1 aid
      = some (a.balance - amt)
    ∧ (recordTransaction
        ⟨some "transfer", some amt, some aid, some cat, some tid, noteso⟩ s).1.transactions
      = s.transactions
    ∧ (recordTransaction
        ⟨some "transfer", some amt, some aid, some cat, some tid, noteso⟩ s).2
      = .error "Account not found" := by
  rw [recordTransaction_transfer_missing_dest amt aid cat tid noteso s a
      hamt.ne' haid hcat htid ha hb]
  refine ⟨?_, rfl, rfl⟩
  unfold balanceOf findAccount
  dsimp only
  rw [find_listUpdate_self Account.id aid
      (fun x => { x with balance := a.balance + -amt }) (fun x => rfl) s.accounts]
  unfold findAccount at ha
  rw [ha]
  simp [sub_eq_add_neg]

/-- Instantiation of claim C9: transfer of 50 from Account A (balance 100)
to the nonexistent account C leaves A at 50, no transaction document, and
the not-found error. -/
theorem claim_recordTransaction_partial_transfer_witness :
    balanceOf (recordTransaction
        ⟨some "transfer", some 50, some "A", some "Account Transfer",
          some "C", none⟩ demoFin).1 "A"
      = some (acctA.balance - 50)
    ∧ (recordTransaction
        ⟨some "transfer", some 50, some "A", some "Account Transfer",
          some "C", none⟩ demoFin).1.transactions
      = demoFin.transactions
    ∧ (recordTransaction
        ⟨some "transfer", some 50, some "A", some "Account Transfer",
          some "C", none⟩ demoFin).2
      = .error "Account not found" :=
  claim_recordTransaction_partial_transfer 50 "A" "Account Transfer" "C" none
    demoFin acctA (by decide) (by decide) (by decide) (by decide)
    (by decide) (by decide)

/-! ## CRM: customers and credit adjustment (CRMManager, crm.js) -/

/-- A document of the `customers` collection (fields used by the credit
adjuster and the purchase statistics; created by `createCustomer`). -/
structure Customer where
  id : String
  name : String
  outstandingBalance : ℚ
  creditLimit : ℚ
  creditUsed : ℚ
  totalPurchases : ℤ
  totalSpent : ℚ
deriving Repr, DecidableEq

/-- A document of the `credit_transactions` collection, appended by
`updateCustomerCredit`. -/
structure CreditTransaction where
  customerId : String
  amount : ℚ
  type : String
  previousBalance : ℚ
  newBalance : ℚ
  userId : String
deriving Repr, DecidableEq

/-- The slice of the document store touched by the credit adjuster, plus the
ambient authenticated user id. -/
structure CrmState where
  customers : List Customer
  creditTransactions : List CreditTransaction
  uid : String
deriving Repr, DecidableEq

/-- `getDocument('customers', id)`. -/
def findCustomer (s : CrmState) (customerId : String) : Option Customer :=
  s.customers.find? (fun c => c.id == customerId)

/-- The new-balance arithmetic of `updateCustomerCredit`: increase adds the
amount; decrease and payment subtract it and clamp at 0; any other type
string leaves the balance unchanged. -/
def newCreditBalance (ob amount : ℚ) (ty : String) : ℚ :=
  if ty == "increase" then ob + amount
  else if ty == "decrease" then
    if ob - amount < 0 then 0 else ob - amount
  else if ty == "payment" then
    if ob - amount < 0 then 0 else ob - amount
  else ob

/-- `CRMManager.updateCustomerCredit(customerId, amount, type)` (crm.js):
read the customer, fail if missing, compute the new balance, fail with
`Credit limit exceeded` if it exceeds a positive credit limit, otherwise
write `outstandingBalance` and `creditUsed` (both set to the new balance)
and append one `credit_transactions` document carrying the previous and new
balances; returns the new balance. -/
def updateCustomerCredit (customerId : String) (amount : ℚ) (ty : String)
    (s : CrmState) : CrmState × Except String ℚ :=
  match findCustomer s customerId with
  | none => (s, .error "Customer not found")
  | some customer =>
    let newBalance := newCreditBalance customer.outstandingBalance amount ty
    if newBalance > customer.creditLimit ∧ customer.creditLimit > 0 then
      (s, .error "Credit limit exceeded")
    else
      let customers := listUpdate Customer.id customerId
        (fun c => { c with outstandingBalance := newBalance,
                           creditUsed := newBalance }) s.customers
      let ct : CreditTransaction :=
        { customerId := customerId, amount := amount, type := ty,
          previousBalance := customer.outstandingBalance,
          newBalance := newBalance, userId := s.uid }
      ({ s with customers := customers,
                creditTransactions := s.creditTransactions ++ [ct] },
       .ok newBalance)

/-- Reduction of `updateCustomerCredit` when the credit-limit check passes. -/
theorem updateCustomerCredit_ok (customerId : String) (amount : ℚ) (ty : String)
    (s : CrmState) (c : Customer)
    (hc : findCustomer s customerId = some c)
    (hlim : ¬(newCreditBalance c.outstandingBalance amount ty > c.creditLimit
              ∧ c.creditLimit > 0)) :
    updateCustomerCredit customerId amount ty s =
      ({ s with
          customers := listUpdate Customer.id customerId
            (fun x => { x with
                outstandingBalance := newCreditBalance c.outstandingBalance amount ty,
                creditUsed := newCreditBalance c.outstandingBalance amount ty })
            s.customers,
          creditTransactions := s.creditTransactions ++
            [{ customerId := customerId, amount := amount, type := ty,
               previousBalance := c.outstandingBalance,
               newBalance := newCreditBalance c.outstandingBalance amount ty,
               userId := s.uid }] },
       .ok (newCreditBalance c.outstandingBalance amount ty)) := by
  unfold updateCustomerCredit
  rw [hc]
  simp [hlim]

/-- Reduction of `updateCustomerCredit` when the credit-limit check fails:
the store is untouched. -/
theorem updateCustomerCredit_limit (customerId : String) (amount : ℚ) (ty : String)
    (s : CrmState) (c : Customer)
    (hc : findCustomer s customerId = some c)
    (hlim : newCreditBalance c.outstandingBalance amount ty > c.creditLimit
            ∧ c.creditLimit > 0) :
    updateCustomerCredit customerId amount ty s
      = (s, .error "Credit limit exceeded") := by
  unfold updateCustomerCredit
  rw [hc]
  simp [hlim]

/-- The new balance is non-negative whenever the starting balance and the
amount are (increase adds; decrease and payment clamp at 0). -/
theorem newCreditBalance_nonneg (ob amount : ℚ) (ty : String)
    (h0 : 0 ≤ ob) (hamt : 0 ≤ amount) :
    0 ≤ newCreditBalance ob amount ty := by
  unfold newCreditBalance
  split
  · linarith
  · split
    · split <;> linarith
    · split
      · split <;> linarith
      · exact h0

/-- Claim C5: `updateCustomerCredit` never persists an outstanding balance
below 0 (decrease and payment clamp at 0) or above a positive credit limit:
a call whose computed new balance would exceed a positive credit limit fails
with the credit-limit error and leaves the store unchanged, before any
persist; with creditLimit = 0 every increase succeeds; on success it appends
one credit-transaction document carrying the previous and new balances and
returns the new balance, which is also the balance persisted on the
customer. -/
theorem claim_updateCustomerCredit_bounds (customerId : String) (amount : ℚ)
    (ty : String) (s : CrmState) (c : Customer)
    (hc : findCustomer s customerId = some c)
    (h0 : 0 ≤ c.outstandingBalance) (hamt : 0 ≤ amount)
    (hty : ty = "increase" ∨ ty = "decrease" ∨ ty = "payment") :
    (∀ nb, (updateCustomerCredit customerId amount ty s).2 = .ok nb →
      0 ≤ nb
      ∧ (0 < c.creditLimit → nb ≤ c.creditLimit)
      ∧ (∃ c2, findCustomer (updateCustomerCredit customerId amount ty s).1 customerId
            = some c2 ∧ c2.outstandingBalance = nb ∧ c2.creditLimit = c.creditLimit)
      ∧ (∃ ct, (updateCustomerCredit customerId amount ty s).1.creditTransactions
            = s.creditTransactions ++ [ct]
          ∧ ct.previousBalance = c.outstandingBalance ∧ ct.newBalance = nb))
    ∧ (c.creditLimit = 0 → ty = "increase" →
        ∃ nb, (updateCustomerCredit customerId amount ty s).2 = .ok nb)
    ∧ (newCreditBalance c.outstandingBalance amount ty > c.creditLimit →
        0 < c.creditLimit →
        updateCustomerCredit customerId amount ty s
          = (s, .error "Credit limit exceeded")) := by
  refine ⟨?_, ?_, ?_⟩
  · intro nb hnb
    by_cases hlim : newCreditBalance c.outstandingBalance amount ty > c.creditLimit
        ∧ c.creditLimit > 0
    · rw [updateCustomerCredit_limit customerId amount ty s c hc hlim] at hnb
      cases hnb
    · rw [updateCustomerCredit_ok customerId amount ty s c hc hlim] at hnb ⊢
      have hnbv : nb = newCreditBalance c.outstandingBalance amount ty :=
        (Except.ok.inj hnb).symm
      subst hnbv
      refine ⟨newCreditBalance_nonneg c.outstandingBalance amount ty h0 hamt,
        ?_, ?_, ?_⟩
      · intro hpos
        by_contra hgt
        exact hlim ⟨lt_of_not_le hgt, hpos⟩
      · refine ⟨{ c with
            outstandingBalance := newCreditBalance c.outstandingBalance amount ty,
            creditUsed := newCreditBalance c.outstandingBalance amount ty },
          ?_, rfl, rfl⟩
        unfold findCustomer
        dsimp only
        rw [find_listUpdate_self Customer.id customerId
            (fun x => { x with
                outstandingBalance := newCreditBalance c.outstandingBalance amount ty,
                creditUsed := newCreditBalance c.outstandingBalance amount ty })
            (fun x => rfl)]
        unfold findCustomer at hc
        rw [hc]
        rfl
      · exact ⟨_, rfl, rfl, rfl⟩
  · intro hzero _
    have hlim : ¬(newCreditBalance c.outstandingBalance amount ty > c.creditLimit
        ∧ c.creditLimit > 0) := by
      rw [hzero]
      intro hk
      exact absurd hk.2 (by norm_num)
    rw [updateCustomerCredit_ok customerId amount ty s c hc hlim]
    exact ⟨_, rfl⟩
  · intro hgt hpos
    exact updateCustomerCredit_limit customerId amount ty s c hc ⟨hgt, hpos⟩

/-- Sample customer used to instantiate the credit claims: balance 40,
credit limit 100. -/
def demoCustomer : Customer :=
  { id := "c1", name := "Jane", outstandingBalance := 40, creditLimit := 100,
    creditUsed := 40, totalPurchases := 3, totalSpent := 500 }

/-- Sample CRM store holding just `demoCustomer`. -/
def demoCrm : CrmState :=
  { customers := [demoCustomer], creditTransactions := [], uid := "user-1" }

/-- Instantiation of claim C5 on both paths: an increase of 30 on balance 40
with limit 100 keeps the persisted balance within [0, creditLimit], and an
increase of 70 (new balance 110 > limit 100) fails with the credit-limit
error leaving the store unchanged. -/
theorem claim_updateCustomerCredit_bounds_witness :
    (∀ nb, (updateCustomerCredit "c1" 30 "increase" demoCrm).2 = .ok nb →
      0 ≤ nb
      ∧ (0 < demoCustomer.creditLimit → nb ≤ demoCustomer.creditLimit)
      ∧ (∃ c2, findCustomer (updateCustomerCredit "c1" 30 "increase" demoCrm).1 "c1"
            = some c2 ∧ c2.outstandingBalance = nb
            ∧ c2.creditLimit = demoCustomer.creditLimit)
      ∧ (∃ ct, (updateCustomerCredit "c1" 30 "increase" demoCrm).1.creditTransactions
            = demoCrm.creditTransactions ++ [ct]
          ∧ ct.previousBalance = demoCustomer.outstandingBalance
          ∧ ct.newBalance = nb))
    ∧ (demoCustomer.creditLimit = 0 → "increase" = "increase" →
        ∃ nb, (updateCustomerCredit "c1" 30 "increase" demoCrm).2 = .ok nb)
    ∧ (newCreditBalance demoCustomer.outstandingBalance 30 "increase"
          > demoCustomer.creditLimit →
        0 < demoCustomer.creditLimit →
        updateCustomerCredit "c1" 30 "increase" demoCrm
          = (demoCrm, .error "Credit limit exceeded"))
    ∧ updateCustomerCredit "c1" 70 "increase" demoCrm
        = (demoCrm, .error "Credit limit exceeded") := by
  obtain ⟨w1, w2, w3⟩ :=
    claim_updateCustomerCredit_bounds "c1" 30 "increase" demoCrm demoCustomer
      (by decide) (by norm_num [demoCustomer]) (by norm_num) (Or.inl rfl)
  refine ⟨w1, w2, w3, ?_⟩
  exact (claim_updateCustomerCredit_bounds "c1" 70 "increase" demoCrm demoCustomer
      (by decide) (by norm_num [demoCustomer]) (by norm_num) (Or.inl rfl)).2.2
    (by norm_num [newCreditBalance, demoCustomer]) (by norm_num [demoCustomer])

/-- Claim C10: after every successful `updateCustomerCredit` call, whatever
the adjustment type string and amount, the persisted `creditUsed` equals the
persisted `outstandingBalance` (both are written with the same new-balance
value). -/
theorem claim_updateCustomerCredit_creditUsed (customerId : String) (amount : ℚ)
    (ty : String) (s : CrmState) (nb : ℚ)
    (hnb : (updateCustomerCredit customerId amount ty s).2 = .ok nb) :
    ∃ c2, findCustomer (updateCustomerCredit customerId amount ty s).1 customerId
        = some c2
      ∧ c2.creditUsed = c2.outstandingBalance
      ∧ c2.outstandingBalance = nb := by
  cases hc : findCustomer s customerId with
  | none =>
    exfalso
    unfold updateCustomerCredit at hnb
    rw [hc] at hnb
    cases hnb
  | some c =>
    by_cases hlim : newCreditBalance c.outstandingBalance amount ty > c.creditLimit
        ∧ c.creditLimit > 0
    · rw [updateCustomerCredit_limit customerId amount ty s c hc hlim] at hnb
      cases hnb
    · rw [updateCustomerCredit_ok customerId amount ty s c hc hlim] at hnb ⊢
      have hnbv : nb = newCreditBalance c.outstandingBalance amount ty :=
        (Except.ok.inj hnb).symm
      refine ⟨{ c with
          outstandingBalance := newCreditBalance c.outstandingBalance amount ty,
          creditUsed := newCreditBalance c.outstandingBalance amount ty },
        ?_, rfl, hnbv.symm⟩
      unfold findCustomer
      dsimp only
      rw [find_listUpdate_self Customer.id customerId
          (fun x => { x with
              outstandingBalance := newCreditBalance c.outstandingBalance amount ty,
              creditUsed := newCreditBalance c.outstandingBalance amount ty })
          (fun x => rfl)]
      unfold findCustomer at hc
      rw [hc]
      rfl

/-- Instantiation of claim C10 at a payment of 15 against balance 40. -/
theorem claim_updateCustomerCredit_creditUsed_witness :
    ∃ c2, findCustomer (updateCustomerCredit "c1" 15 "payment" demoCrm).1 "c1"
        = some c2
      ∧ c2.creditUsed = c2.outstandingBalance
      ∧ c2.outstandingBalance = 25 :=
  claim_updateCustomerCredit_creditUsed "c1" 15 "payment" demoCrm 25
    (by
      norm_num [updateCustomerCredit, findCustomer, demoCrm, demoCustomer,
                newCreditBalance, listUpdate]
      simp
      norm_num)

/-! ## Finance reports: profit and loss (FinanceManager, finance.js) -/

/-- A transaction as consumed by the profit-and-loss fold (the fields the
fold reads). -/
structure PnlTx where
  type : String
  amount : ℚ
  category : String
deriving Repr, DecidableEq

/-- The per-category breakdown maps of the P&L report, in insertion order
(model of the JavaScript object used as a dictionary). -/
structure PnlDetails where
  revenue : List (String × ℚ)
  expenses : List (String × ℚ)
deriving Repr, DecidableEq

/-- The report returned by `getProfitAndLoss`. -/
structure Pnl where
  revenue : ℚ
  cogs : ℚ
  grossProfit : ℚ
  operatingExpenses : ℚ
  netProfit : ℚ
  details : PnlDetails
deriving Repr, DecidableEq

/-- `if (!details[cat]) details[cat] = 0; details[cat] += amount` on a
JavaScript object used as a dictionary: add to the existing entry or append
a new one. (When the stored value is 0 the source takes the initialise
branch, which stores 0 again before adding, so the result is the same.) -/
def bumpCategory (m : List (String × ℚ)) (cat : String) (amt : ℚ) :
    List (String × ℚ) :=
  match m.find? (fun p => p.1 == cat) with
  | none => m ++ [(cat, amt)]
  | some _ => m.map (fun p => if p.1 == cat then (p.1, p.2 + amt) else p)

/-- One iteration of the `transactions.forEach` loop of `getProfitAndLoss`
(finance.js): income adds to revenue (and to cogs only when the category is
Cost of Goods, inside the income branch); expense adds to
operatingExpenses; any other type is ignored. -/
def pnlStep (pnl : Pnl) (t : PnlTx) : Pnl :=
  if t.type == "income" then
    let pnl1 := { pnl with
      revenue := pnl.revenue + t.amount,
      details := { pnl.details with
        revenue := bumpCategory pnl.details.revenue t.category t.amount } }
    if t.category == "Cost of Goods" then
      { pnl1 with cogs := pnl1.cogs + t.amount }
    else pnl1
  else if t.type == "expense" then
    { pnl with
      operatingExpenses := pnl.operatingExpenses + t.amount,
      details := { pnl.details with
        expenses := bumpCategory pnl.details.expenses t.category t.amount } }
  else pnl

/-- `FinanceManager.getProfitAndLoss` (finance.js) as a pure fold over the
loaded transactions: accumulate revenue, cogs and operating expenses, then
set grossProfit = revenue − cogs and netProfit = grossProfit −
operatingExpenses. -/
def getProfitAndLoss (txs : List PnlTx) : Pnl :=
  let pnl := txs.foldl pnlStep
    { revenue := 0, cogs := 0, grossProfit := 0, operatingExpenses := 0,
      netProfit := 0, details := { revenue := [], expenses := [] } }
  { pnl with
      grossProfit := pnl.revenue - pnl.cogs,
      netProfit := pnl.revenue - pnl.cogs - pnl.operatingExpenses }

/-- Spec-side formula: sum of the amounts of income-type transactions. -/
def sumIncome (txs : List PnlTx) : ℚ :=
  ((txs.filter (fun t => t.type == "income")).map PnlTx.amount).sum

/-- Spec-side formula: sum of the amounts of expense-type transactions. -/
def sumExpense (txs : List PnlTx) : ℚ :=
  ((txs.filter (fun t => t.type == "expense")).map PnlTx.amount).sum

/-- Spec-side formula, following the claim verbatim: sum of the amounts of
ALL transactions whose category is Cost of Goods, regardless of type. -/
def sumCogsAll (txs : List PnlTx) : ℚ :=
  ((txs.filter (fun t => t.category == "Cost of Goods")).map PnlTx.amount).sum

/-- What the code actually accumulates as cogs: amounts of transactions that
are BOTH income-type and of category Cost of Goods. -/
def sumCogsIncome (txs : List PnlTx) : ℚ :=
  ((txs.filter (fun t => t.type == "income" && t.category == "Cost of Goods")).map
    PnlTx.amount).sum

/-- Effect of one fold step on the accumulated revenue. -/
theorem pnlStep_revenue (pnl : Pnl) (t : PnlTx) :
    (pnlStep pnl t).revenue
      = pnl.revenue + (if t.type == "income" then t.amount else 0) := by
  unfold pnlStep
  cases h1 : (t.type == "income")
  · cases h2 : (t.type == "expense") <;> simp [h1, h2]
  · cases h3 : (t.category == "Cost of Goods") <;> simp [h1, h3]

/-- Effect of one fold step on the accumulated cogs: only income-type
transactions of category Cost of Goods contribute. -/
theorem pnlStep_cogs (pnl : Pnl) (t : PnlTx) :
    (pnlStep pnl t).cogs
      = pnl.cogs + (if t.type == "income" && t.category == "Cost of Goods"
                    then t.amount else 0) := by
  unfold pnlStep
  cases h1 : (t.type == "income")
  · cases h2 : (t.type == "expense") <;> simp [h1, h2]
  · cases h3 : (t.category == "Cost of Goods") <;> simp [h1, h3]

/-- Effect of one fold step on the accumulated operating expenses. -/
theorem pnlStep_opex (pnl : Pnl) (t : PnlTx) :
    (pnlStep pnl t).operatingExpenses
      = pnl.operatingExpenses + (if t.type == "expense" then t.amount else 0) := by
  unfold pnlStep
  cases h1 : (t.type == "income")
  · cases h2 : (t.type == "expense") <;> simp [h1, h2]
  · have h2 : (t.type == "expense") = false := by
      have := eq_of_beq h1
      simp [this]
    cases h3 : (t.category == "Cost of Goods") <;> simp [h1, h2, h3]

/-- Unfolding of `sumIncome` on a cons. -/
theorem sumIncome_cons (t : PnlTx) (ts : List PnlTx) :
    sumIncome (t :: ts)
      = (if t.type == "income" then t.amount else 0) + sumIncome ts := by
  unfold sumIncome
  cases h : (t.type == "income") <;> simp [List.filter_cons, h]

/-- Unfolding of `sumExpense` on a cons. -/
theorem sumExpense_cons (t : PnlTx) (ts : List PnlTx) :
    sumExpense (t :: ts)
      = (if t.type == "expense" then t.amount else 0) + sumExpense ts := by
  unfold sumExpense
  cases h : (t.type == "expense") <;> simp [List.filter_cons, h]

/-- Unfolding of `sumCogsIncome` on a cons. -/
theorem sumCogsIncome_cons (t : PnlTx) (ts : List PnlTx) :
    sumCogsIncome (t :: ts)
      = (if t.type == "income" && t.category == "Cost of Goods"
         then t.amount else 0) + sumCogsIncome ts := by
  unfold sumCogsIncome
  cases h : (t.type == "income" && t.category == "Cost of Goods") <;>
    simp [List.filter_cons, h]

/-- The P&L fold accumulates exactly the three sums, whatever the starting
accumulator. -/
theorem pnl_foldl_fields (txs : List PnlTx) : ∀ pnl : Pnl,
    (txs.foldl pnlStep pnl).revenue = pnl.revenue + sumIncome txs
    ∧ (txs.foldl pnlStep pnl).cogs = pnl.cogs + sumCogsIncome txs
    ∧ (txs.foldl pnlStep pnl).operatingExpenses
        = pnl.operatingExpenses + sumExpense txs := by
  induction txs with
  | nil =>
    intro pnl
    refine ⟨?_, ?_, ?_⟩ <;> simp [sumIncome, sumCogsIncome, sumExpense]
  | cons t ts ih =>
    intro pnl
    simp only [List.foldl_cons]
    obtain ⟨i1, i2, i3⟩ := ih (pnlStep pnl t)
    refine ⟨?_, ?_, ?_⟩
    · rw [i1, pnlStep_revenue, sumIncome_cons]; ring
    · rw [i2, pnlStep_cogs, sumCogsIncome_cons]; ring
    · rw [i3, pnlStep_opex, sumExpense_cons]; ring

/-- Counterexample to claim C6 as stated: for the single transaction
(type expense, amount 10, category Cost of Goods), the code reports
grossProfit 0 and netProfit −10, while the claimed formula
Σincome − Σ(category = Cost of Goods) gives −10 for the gross profit (and
−20 for the net profit): the code only counts a transaction as cogs inside
the income branch. -/
theorem claim_pnl_counterexample :
    (getProfitAndLoss [{ type := "expense", amount := 10,
                         category := "Cost of Goods" }]).grossProfit = 0
    ∧ sumIncome [{ type := "expense", amount := 10,
                   category := "Cost of Goods" }]
        - sumCogsAll [{ type := "expense", amount := 10,
                        category := "Cost of Goods" }] = -10
    ∧ (getProfitAndLoss [{ type := "expense", amount := 10,
                           category := "Cost of Goods" }]).grossProfit
        ≠ sumIncome [{ type := "expense", amount := 10,
                       category := "Cost of Goods" }]
          - sumCogsAll [{ type := "expense", amount := 10,
                          category := "Cost of Goods" }]
    ∧ (getProfitAndLoss [{ type := "expense", amount := 10,
                           category := "Cost of Goods" }]).netProfit = -10 := by
  refine ⟨?_, ?_, ?_, ?_⟩ <;>
    simp [getProfitAndLoss, pnlStep, bumpCategory, sumIncome, sumCogsAll,
          List.filter_cons]

/-- Claim C6 (amended): for every fixed list of transactions the aggregator
returns grossProfit equal to the sum of income-type amounts minus the sum of
amounts of INCOME-type transactions whose category is Cost of Goods (expense
transactions in that category count only toward operating expenses), and
netProfit equal to that gross profit minus the sum of expense-type
amounts. -/
theorem claim_pnl_amended (txs : List PnlTx) :
    (getProfitAndLoss txs).grossProfit = sumIncome txs - sumCogsIncome txs
    ∧ (getProfitAndLoss txs).netProfit
        = (sumIncome txs - sumCogsIncome txs) - sumExpense txs := by
  obtain ⟨h1, h2, h3⟩ := pnl_foldl_fields txs
    { revenue := 0, cogs := 0, grossProfit := 0, operatingExpenses := 0,
      netProfit := 0, details := { revenue := [], expenses := [] } }
  unfold getProfitAndLoss
  constructor
  · dsimp only
    rw [h1, h2]
    ring
  · dsimp only
    rw [h1, h2, h3]
    ring

/-! ## POS: tax calculation and cart summary (POSManager, pos.js) -/

/-- `Number.prototype.toFixed(2)` followed by `parseFloat`, on the exact
rational model of JavaScript numbers: round to two decimal places. -/
def round2 (q : ℚ) : ℚ := (round (q * 100) : ℤ) / 100

/-- The record returned by `calculateTax`. -/
structure TaxResult where
  netAmount : ℚ
  taxAmount : ℚ
  grossAmount : ℚ
deriving Repr, DecidableEq

/-- `POSManager.calculateTax(amount, rate, isInclusive)` (pos.js): exclusive
tax is `amount * rate / 100`; inclusive tax is
`amount - amount / (1 + rate / 100)`; every component is rounded to two
decimals via `toFixed(2)`. -/
def calculateTax (amount rate : ℚ) (isInclusive : Bool) : TaxResult :=
  if isInclusive then
    let taxAmount := amount - amount / (1 + rate / 100)
    let netAmount := amount - taxAmount
    { netAmount := round2 netAmount, taxAmount := round2 taxAmount,
      grossAmount := round2 amount }
  else
    let taxAmount := amount * (rate / 100)
    let grossAmount := amount + taxAmount
    { netAmount := round2 amount, taxAmount := round2 taxAmount,
      grossAmount := round2 grossAmount }

/-- One line of the in-memory POS cart. -/
structure CartItem where
  productId : String
  name : String
  sku : String
  price : ℚ
  cost : ℚ
  quantity : ℤ
  total : ℚ
  taxAmount : ℚ
  stock : ℤ
  unit : String
deriving Repr, DecidableEq

/-- The cart line pushed by `POSManager.addToCart` for a product not yet in
the cart: `total = price * quantity` and
`taxAmount = calculateTax(price * quantity, taxRate, false).taxAmount`. -/
def mkCartLine (product : Product) (quantity : ℤ) (taxRate : ℚ) : CartItem :=
  { productId := product.id, name := product.name, sku := product.sku,
    price := product.price, cost := product.cost, quantity := quantity,
    total := product.price * quantity,
    taxAmount := (calculateTax (product.price * quantity) taxRate false).taxAmount,
    stock := product.stock, unit := product.unit }

/-- The summary record computed by `updateCartSummary`. -/
structure CartSummary where
  subtotal : ℚ
  tax : ℚ
  discount : ℚ
  total : ℚ
  itemCount : ℤ
deriving Repr, DecidableEq

/-- `POSManager.updateCartSummary` (pos.js): fold the cart lines, summing
`total` into subtotal, `taxAmount` into tax and `quantity` into itemCount
(discount stays 0 — nothing in the source ever sets it), then
`total = subtotal + tax - discount`. -/
def updateCartSummary (cart : List CartItem) : CartSummary :=
  let s := cart.foldl
    (fun (acc : CartSummary) item =>
      { acc with
          subtotal := acc.subtotal + item.total,
          tax := acc.tax + item.taxAmount,
          itemCount := acc.itemCount + item.quantity })
    { subtotal := 0, tax := 0, discount := 0, total := 0, itemCount := 0 }
  { s with total := s.subtotal + s.tax - s.discount }

/-- The product of the tax scenario: price 10. -/
def taxDemoProduct : Product :=
  { id := "p9", name := "Soda", sku := "S-9", cost := 6, price := 10,
    stock := 50, reorderLevel := 5, lowStock := false, unit := "pcs" }

/-- Claim C8: for a cart containing the single line price 10, quantity 2,
with tax rate 16 percent and exclusive tax, the summary has subtotal 20,
tax 3.20 and total 23.20, the per-line tax being amount * rate / 100. -/
theorem claim_pos_tax_scenario :
    (mkCartLine taxDemoProduct 2 16).taxAmount = (10 * 2) * (16 / 100)
    ∧ (updateCartSummary [mkCartLine taxDemoProduct 2 16]).subtotal = 20
    ∧ (updateCartSummary [mkCartLine taxDemoProduct 2 16]).tax = 32 / 10
    ∧ (updateCartSummary [mkCartLine taxDemoProduct 2 16]).total = 232 / 10 := by
  refine ⟨?_, ?_, ?_, ?_⟩ <;>
    norm_num [mkCartLine, calculateTax, round2, updateCartSummary, taxDemoProduct]

/-! ## POS: checkout workflow (POSManager, pos.js)

`POSManager.processPayment` ends every non-throwing branch by calling
`financeManager.recordTransaction(...)`; the `FinanceManager` class
(finance.js) defines no such method, so that call throws a TypeError at run
time after the per-method payment steps (including the customer-credit
increase for credit payments) have already executed. The embedding models
that call faithfully as a thrown error, which makes the post-payment steps
of `processCheckout` dead code; they are still modelled below. -/

/-- The in-memory POS session: cart, attached customer and tax rate. -/
structure PosState where
  cart : List CartItem
  currentCustomer : Option Customer
  taxRate : ℚ
deriving Repr, DecidableEq

/-- The payment input of `processCheckout`. -/
structure PaymentData where
  method : String
  reference : Option String := none
  cashTendered : Option ℚ := none
deriving Repr, DecidableEq

/-- The payment object as returned by `processPayment` on its (unreachable)
success path; the per-method cosmetic fields (card digits, mobile provider)
of the discarded local object are omitted. -/
structure Payment where
  amount : ℚ
  method : String
  reference : String
  status : String
  success : Bool
deriving Repr, DecidableEq

/-- One line snapshot inside a persisted `sales` document. -/
structure SaleLine where
  productId : String
  name : String
  sku : String
  quantity : ℤ
  price : ℚ
  total : ℚ
  cost : ℚ
deriving Repr, DecidableEq

/-- A document of the `sales` collection created by `createSaleRecord`. -/
structure Sale where
  id : Nat
  items : List SaleLine
  customerId : Option String
  customerName : String
  subtotal : ℚ
  tax : ℚ
  discount : ℚ
  total : ℚ
  paymentMethod : String
  paymentReference : String
  status : String
deriving Repr, DecidableEq

/-- The purchase record appended by `CRMManager.recordPurchase` (crm.js);
the source writes it into the same schemaless `sales` collection, with a
different shape than `createSaleRecord`; the model keeps the two shapes in
two lists. -/
structure PurchaseRec where
  customerId : String
  amount : ℚ
  itemsCount : ℤ
  paymentMethod : String
  saleId : String
  status : String
  taxAmount : ℚ
  discountAmount : ℚ
  netAmount : ℚ
deriving Repr, DecidableEq

/-- A document of the `receipts` collection written by `generateReceipt`;
the environment-supplied fields (random id, date, cashier, business info)
and the HTML rendering are presentation values outside every claim and are
omitted. -/
structure Receipt where
  saleId : Nat
  items : List CartItem
  summary : CartSummary
  paymentMethod : String
  customerName : String
deriving Repr, DecidableEq

/-- The record returned by `processCheckout` on success. -/
structure CheckoutResult where
  sale : Sale
  receipt : Receipt
  payment : Payment
deriving Repr, DecidableEq

/-- The whole document store plus the POS session and the ambient clock. -/
structure World where
  pos : PosState
  crm : CrmState
  inv : InvState
  fin : FinState
  sales : List Sale
  salesNextId : Nat
  purchases : List PurchaseRec
  receipts : List Receipt
  now : Nat
deriving Repr, DecidableEq

/-- `String.prototype.includes`: the split at the pattern has more than one
piece exactly when the pattern occurs. -/
def strContains (s pat : String) : Bool := (s.splitOn pat).length != 1

/-- `POSManager.getPaymentAccount(paymentMethod)` (pos.js): pick the default
account whose lowercased name contains the method keyword, falling back to
the first account. A pure read of the accounts collection. -/
def getPaymentAccount (method : String) (accounts : List Account) : Option String :=
  if method == "Cash" then
    match accounts.find? (fun a => strContains a.name.toLower "cash" && a.isDefault) with
    | some a => some a.id
    | none => accounts.head?.map Account.id
  else if method == "Card" || method == "Bank Transfer" then
    match accounts.find? (fun a => strContains a.name.toLower "bank" && a.isDefault) with
    | some a => some a.id
    | none => accounts.head?.map Account.id
  else if method == "Mobile Money" then
    match accounts.find? (fun a => strContains a.name.toLower "mobile" && a.isDefault) with
    | some a => some a.id
    | none => accounts.head?.map Account.id
  else accounts.head?.map Account.id

/-- The error a JavaScript engine raises for
`financeManager.recordTransaction(...)` when the method does not exist. -/
def recordTransactionTypeError : String :=
  "TypeError: financeManager.recordTransaction is not a function"

/-- `POSManager.processPayment(amount, paymentData)` (pos.js). Every branch
of the method switch either throws or sets the payment to completed, and
every completed payment then calls the nonexistent
`financeManager.recordTransaction` (its arguments, including the
`getPaymentAccount` read, are evaluated first), so the function never
returns: for a credit payment the customer-credit increase has already been
written when the TypeError propagates. -/
def processPayment (amount : ℚ) (pd : PaymentData) (w : World) :
    World × Except String Payment :=
  if pd.method == "Cash" || pd.method == "Card" || pd.method == "Mobile Money" then
    let _acct := getPaymentAccount pd.method w.fin.accounts
    (w, .error recordTransactionTypeError)
  else if pd.method == "Credit" then
    match w.pos.currentCustomer with
    | none => (w, .error "Customer required for credit payment")
    | some cust =>
      match updateCustomerCredit cust.id amount "increase" w.crm with
      | (crm2, .ok _) =>
        let _acct := getPaymentAccount pd.method w.fin.accounts
        ({ w with crm := crm2 }, .error recordTransactionTypeError)
      | (crm2, .error e) => ({ w with crm := crm2 }, .error e)
  else (w, .error ("Unsupported payment method: " ++ pd.method))

/-- `processPayment` never succeeds: the missing
`financeManager.recordTransaction` method fails every completed payment. -/
theorem processPayment_always_fails (amount : ℚ) (pd : PaymentData) (w : World) :
    ∃ e, (processPayment amount pd w).2 = .error e := by
  unfold processPayment
  split
  · exact ⟨_, rfl⟩
  · split
    · split
      · exact ⟨_, rfl⟩
      · split
        · exact ⟨_, rfl⟩
        · exact ⟨_, rfl⟩
    · exact ⟨_, rfl⟩

/-- `POSManager.createSaleRecord(payment)` (pos.js): snapshot the cart into
one `sales` document and append one audit log entry. -/
def createSaleRecord (payment : Payment) (w : World) : World × Sale :=
  let summary := updateCartSummary w.pos.cart
  let sale : Sale :=
    { id := w.salesNextId,
      items := w.pos.cart.map (fun i =>
        { productId := i.productId, name := i.name, sku := i.sku,
          quantity := i.quantity, price := i.price, total := i.total,
          cost := i.cost }),
      customerId := w.pos.currentCustomer.map Customer.id,
      customerName := match w.pos.currentCustomer with
        | some c => c.name
        | none => "Walk-in Customer",
      subtotal := summary.subtotal, tax := summary.tax,
      discount := summary.discount, total := summary.total,
      paymentMethod := payment.method, paymentReference := payment.reference,
      status := "completed" }
  ({ w with
      sales := w.sales ++ [sale],
      salesNextId := w.salesNextId + 1,
      fin := { w.fin with auditLogs := w.fin.auditLogs ++
        [{ entity := "sale", entityId := sale.id, action := "create" }] } },
   sale)

/-- The `for (const item of this.cart)` loop of `POSManager.updateInventory`
(pos.js): one `updateStock` call of `-quantity` per cart line, aborting on
the first failure with the earlier decrements left in place. -/
def updateInventoryLoop (items : List CartItem) (ref : String) (inv : InvState) :
    InvState × Except String Unit :=
  match items with
  | [] => (inv, .ok ())
  | i :: rest =>
    match updateStock i.productId (-i.quantity) "sale" (some ref) inv with
    | (inv2, .ok _) => updateInventoryLoop rest ref inv2
    | (inv2, .error e) => (inv2, .error e)

/-- `CRMManager.updateCustomerPurchaseStats(customerId, amount)` (crm.js):
silently does nothing when the customer is missing, otherwise bumps
totalPurchases, adds to totalSpent and snapshots `creditUsed` from the
current outstanding balance. -/
def updateCustomerPurchaseStats (customerId : String) (amount : ℚ)
    (crm : CrmState) : CrmState :=
  match findCustomer crm customerId with
  | none => crm
  | some c =>
    { crm with
        customers := listUpdate Customer.id customerId
          (fun x => { x with
              totalPurchases := c.totalPurchases + 1,
              totalSpent := c.totalSpent + amount,
              creditUsed := c.outstandingBalance }) crm.customers }

/-- `CRMManager.recordPurchase(customerId, purchaseData)` (crm.js) as called
from the POS: append the purchase record and update the customer purchase
statistics. -/
def recordPurchase (customerId : String) (amount : ℚ) (itemsCount : ℤ)
    (method saleId : String) (w : World) : World :=
  let purchase : PurchaseRec :=
    { customerId := customerId, amount := amount, itemsCount := itemsCount,
      paymentMethod := if method != "" then method else "cash",
      saleId := saleId, status := "completed", taxAmount := 0,
      discountAmount := 0, netAmount := 0 }
  { w with
      purchases := w.purchases ++ [purchase],
      crm := updateCustomerPurchaseStats customerId amount w.crm }

/-- `POSManager.updateCustomerAfterPurchase(payment)` (pos.js). -/
def updateCustomerAfterPurchase (payment : Payment) (w : World) : World :=
  match w.pos.currentCustomer with
  | none => w
  | some cc =>
    let summary := updateCartSummary w.pos.cart
    recordPurchase cc.id summary.total w.pos.cart.length payment.method
      payment.reference w

/-- `POSManager.generateReceipt(sale, payment)` (pos.js): build the receipt
record, persist it to the `receipts` collection and return it. -/
def generateReceipt (sale : Sale) (payment : Payment) (w : World) :
    World × Receipt :=
  let receipt : Receipt :=
    { saleId := sale.id, items := w.pos.cart,
      summary := updateCartSummary w.pos.cart,
      paymentMethod := payment.method,
      customerName := match w.pos.currentCustomer with
        | some c => c.name
        | none => "Walk-in Customer" }
  ({ w with receipts := w.receipts ++ [receipt] }, receipt)

/-- `POSManager.clearCart` (pos.js). -/
def clearCart (w : World) : World :=
  { w with pos := { w.pos with cart := [], currentCustomer := none } }

/-- Steps 5 to 9 of the checkout workflow (persist sale, decrement stock,
update customer statistics, persist receipt, clear the cart); unreachable
under the embedded `processPayment`, kept for fidelity to the source. -/
def checkoutRest (payment : Payment) (w : World) :
    World × Except String CheckoutResult :=
  if !payment.success then
    (w, .error "Payment failed: undefined")
  else
    let r1 := createSaleRecord payment w
    match updateInventoryLoop r1.1.pos.cart ("POS Sale - " ++ toString r1.1.now)
        r1.1.inv with
    | (inv2, .error e) => ({ r1.1 with inv := inv2 }, .error e)
    | (inv2, .ok _) =>
      let w3 := { r1.1 with inv := inv2 }
      let w4 := updateCustomerAfterPurchase payment w3
      let r2 := generateReceipt r1.2 payment w4
      (clearCart r2.1, .ok { sale := r1.2, receipt := r2.2, payment := payment })

/-- `POSManager.processCheckout(paymentData)` (pos.js): reject an empty
cart, compute the summary, run the credit pre-check (only for method Credit
with an attached customer: re-read the customer and require
`total ≤ creditLimit - creditUsed`, else throw `Credit limit exceeded`
before any write), then process the payment and, were it ever to succeed,
run the remaining steps. -/
def processCheckout (pd : PaymentData) (w : World) :
    World × Except String CheckoutResult :=
  if w.pos.cart.length == 0 then (w, .error "Cart is empty")
  else
    let summary := updateCartSummary w.pos.cart
    let creditCheck : Except String Unit :=
      if pd.method == "Credit" then
        match w.pos.currentCustomer with
        | none => .ok ()
        | some cc =>
          match findCustomer w.crm cc.id with
          | none => .error "TypeError: Cannot read properties of null"
          | some customer =>
            if summary.total > customer.creditLimit - customer.creditUsed then
              .error "Credit limit exceeded"
            else .ok ()
      else .ok ()
    match creditCheck with
    | .error e => (w, .error e)
    | .ok _ =>
      match processPayment summary.total pd w with
      | (w1, .error e) => (w1, .error e)
      | (w1, .ok payment) => checkoutRest payment w1

/-- Claim C7: when checkout is invoked with payment method Credit and an
attached customer, the freshly read customer record's available credit
`creditLimit - creditUsed` is checked against the cart total, and when the
total exceeds it the checkout fails with the credit-limit error before any
write: the whole store, customer balances included, is returned unchanged. -/
theorem claim_checkout_credit_limit (pd : PaymentData) (w : World)
    (cc customer : Customer)
    (hcart : w.pos.cart ≠ [])
    (hm : pd.method = "Credit")
    (hcc : w.pos.currentCustomer = some cc)
    (hcust : findCustomer w.crm cc.id = some customer)
    (hover : customer.creditLimit - customer.creditUsed
              < (updateCartSummary w.pos.cart).total) :
    processCheckout pd w = (w, .error "Credit limit exceeded") := by
  have hlen : (w.pos.cart.length == 0) = false := by
    simp [hcart]
  unfold processCheckout
  rw [hlen, hm]
  simp only [hcc, hcust, Bool.false_eq_true, if_false, beq_self_eq_true, if_true]
  rw [if_pos hover]

/-- The single cart line of the C7 scenario: a sale of 20. -/
def posCartLine : CartItem :=
  { productId := "p9", name := "Soda", sku := "S-9", price := 20, cost := 12,
    quantity := 1, total := 20, taxAmount := 0, stock := 50, unit := "pcs" }

/-- The customer of the C7 scenario: creditLimit 100, creditUsed 90. -/
def posCustomer : Customer :=
  { id := "c9", name := "Max", outstandingBalance := 90, creditLimit := 100,
    creditUsed := 90, totalPurchases := 5, totalSpent := 1000 }

/-- Concrete world for the C7 scenario. -/
def demoWorld : World :=
  { pos := { cart := [posCartLine], currentCustomer := some posCustomer,
             taxRate := 16 },
    crm := { customers := [posCustomer], creditTransactions := [],
             uid := "user-1" },
    inv := demoInv,
    fin := demoFin,
    sales := [], salesNextId := 0, purchases := [], receipts := [], now := 0 }

/-- Instantiation of claim C7 at the spec scenario: creditLimit 100,
creditUsed 90, credit sale of 20 fails with the credit-limit error and the
store is unchanged. -/
theorem claim_checkout_credit_limit_witness :
    processCheckout { method := "Credit" } demoWorld
      = (demoWorld, .error "Credit limit exceeded") :=
  claim_checkout_credit_limit { method := "Credit" } demoWorld
    posCustomer posCustomer
    (by decide) rfl rfl (by decide)
    (by norm_num [updateCartSummary, posCartLine, posCustomer, demoWorld])

end BizManager

